import Mathlib

/-
Shallow embedding of the Lyra argument-parser core from
include/lyra/parser.hpp: parser customization defaults, the
detail::parse_state record, the parser_base cardinality model
(cardinality(), cardinality_count(), is_optional()), and the
bound_parser fluent configuration interface.

size_t values are modelled as Nat together with explicit wrap-around
modulo 2^64 where C++ unsigned arithmetic can overflow.
-/

/-- Modulus of C++ size_t arithmetic: 2^64. -/
def wordSize : Nat := 18446744073709551616

/-- C++ unsigned (size_t) subtraction a - b: the result is congruent to
a - b modulo 2^64 and lies in [0, 2^64). -/
def sizeT_sub (a b : Nat) : Nat := (a + wordSize - b % wordSize) % wordSize

/-- Embeds lyra::parser_customization: the two virtual accessors are
modelled by the strings an implementation returns. -/
structure parser_customization where
  token_delimiters : String
  option_prefix : String

/-- Embeds lyra::default_parser_customization: token delimiters are
space and equal, the option prefix character is dash. -/
def default_parser_customization : parser_customization :=
  ⟨" =", "-"⟩

/-- Modelled from the spec: lyra::args (args.hpp is not under src/); the
engine consumes a flat ordered sequence of argument strings plus an
implicit program name. -/
structure args where
  exe_name : String
  values : List String

/-- Modelled from the spec: detail::token_iterator (detail/tokens.hpp is
not under src/); section 4.2: a cursor constructed from the argument
sequence, the delimiter character set and the option-prefix character
set. parser.hpp only constructs it, so the construction arguments are
the whole model. -/
structure token_iterator where
  arguments : args
  delimiters : String
  prefixChars : String

/-- Modelled from the spec: parser_result_type (parser_result.hpp is not
under src/); section 3 classifies a match attempt as
matched-and-consumed, no-match, or error. -/
inductive parser_result_type where
  | matched
  | no_match
  | run_error
deriving DecidableEq

/-- Embeds detail::parse_state: an outcome classification plus the
remaining token cursor, set once by the constructor. -/
structure parse_state where
  m_type : parser_result_type
  m_remainingTokens : token_iterator

/-- Embeds parse_state::type(). -/
def parse_state.type (s : parse_state) : parser_result_type := s.m_type

/-- Embeds parse_state::remainingTokens(). -/
def parse_state.remainingTokens (s : parse_state) : token_iterator :=
  s.m_remainingTokens

/-- Embeds lyra::parser_base for the cardinality model: the virtual
cardinality() is modelled by an optional override; none means the base
default body runs. -/
structure parser_base where
  cardinality_impl : Option (Nat × Nat)

/-- Embeds parser_base::cardinality() dispatch: an override's value, or
the default body make_tuple(0, 1). -/
def parser_base.cardinality (p : parser_base) : Nat × Nat :=
  match p.cardinality_impl with
  | some c => c
  | none => (0, 1)

/-- Embeds parser_base::cardinality_count(): size_t subtraction
get<1>(c) - get<0>(c) of the reported cardinality. -/
def parser_base.cardinality_count (p : parser_base) : Nat :=
  sizeT_sub p.cardinality.2 p.cardinality.1

/-- Embeds parser_base::is_optional():
(get<0>(c) == 0) && (get<1>(c) > 0). -/
def parser_base.is_optional (p : parser_base) : Bool :=
  (p.cardinality.1 == 0) && decide (0 < p.cardinality.2)

/-- Embeds the non-virtual parser_base::parse(args, customize): it
builds the token_iterator from the customization's delimiters and
prefix and delegates to the virtual parse, modelled by the function
argument vp. -/
def parser_base.parse_with {α : Type}
    (vp : String → token_iterator → parser_customization → α)
    (a : args) (customize : parser_customization) : α :=
  vp a.exe_name
    (token_iterator.mk a customize.token_delimiters
      ( parser_customization.option_prefix customize))
    customize

/-- Embeds the defaulted-argument form of parser_base::parse(args): the
declaration customize = default_parser_customization() supplies the
default customization when the caller passes none. -/
def parser_base.parse_default {α : Type}
    (vp : String → token_iterator → parser_customization → α)
    (a : args) : α :=
  parser_base.parse_with vp a default_parser_customization

/-- Embeds detail::BoundRef as far as parser.hpp uses it: a type-erased
shared handle on which this file's code only queries isContainer(). -/
structure BoundRef where
  isContainer : Bool

/-- Embeds lyra::bound_parser state: the shared bound reference, hint,
description and cardinality tuple. -/
structure BoundParser where
  m_ref : BoundRef
  m_hint : String
  m_description : String
  m_cardinality : Nat × Nat

/-- Embeds the protected bound_parser(ref) constructor: cardinality is
(0, 0) when the reference is container-typed, else (0, 1); hint and
description start empty. -/
def BoundParser.ctor (ref : BoundRef) : BoundParser :=
  { m_ref := ref
    m_hint := ""
    m_description := ""
    m_cardinality := if ref.isContainer then (0, 0) else (0, 1) }

/-- Embeds the public bound_parser(ref, hint) constructors (value and
lambda forms behave identically here): delegate to the protected
constructor, then set the hint. -/
def BoundParser.make (ref : BoundRef) (hint : String) : BoundParser :=
  { BoundParser.ctor ref with m_hint := hint }

/-- Embeds bound_parser::operator()(description). -/
def BoundParser.describe (p : BoundParser) (description : String) :
    BoundParser :=
  { p with m_description := description }

/-- Embeds the two-argument bound_parser::cardinality(n, m) setter. -/
def BoundParser.cardinalityNM (p : BoundParser) (n m : Nat) : BoundParser :=
  { p with m_cardinality := (n, m) }

/-- Embeds the one-argument bound_parser::cardinality(n) setter:
stores make_tuple(n, n). -/
def BoundParser.cardinalityN (p : BoundParser) (n : Nat) : BoundParser :=
  { p with m_cardinality := (n, n) }

/-- Embeds bound_parser::optional(): cardinality(0, 1). -/
def BoundParser.optional (p : BoundParser) : BoundParser :=
  p.cardinalityNM 0 1

/-- Embeds bound_parser::required(): cardinality(1, 1). -/
def BoundParser.required (p : BoundParser) : BoundParser :=
  p.cardinalityNM 1 1

/-- Embeds the bound_parser::cardinality() const getter override. -/
def BoundParser.cardinality (p : BoundParser) : Nat × Nat :=
  p.m_cardinality

/-- Embeds bound_parser::hint(). -/
def BoundParser.hint (p : BoundParser) : String := p.m_hint

/-- Views a bound_parser through its parser_base interface: its virtual
cardinality() override reports m_cardinality. -/
def BoundParser.toParserBase (p : BoundParser) : parser_base :=
  ⟨some p.m_cardinality⟩

/-- Outcome of post-parse validation as the spec describes it. -/
inductive ValidateResult where
  | ok
  | cardinalityError (hint : String) (required_min required_max observed : Nat)
deriving DecidableEq

/-- Modelled from the spec: cardinality validation (the match counting
and CardinalityError reporting live outside src/; parser.hpp only
declares the trivial parser_base::validate default). Section 4.4: after
a full parse pass the observed match count must satisfy
min <= observed <= max, where an unbounded max (0, used by
container-bound parsers) always satisfies the upper side; a violation
reports a CardinalityError naming the parser's hint and the required
and observed counts. -/
def BoundParser.validate_modelled (p : BoundParser) (observed : Nat) :
    ValidateResult :=
  if observed < p.m_cardinality.1 ∨
      (0 < p.m_cardinality.2 ∧ p.m_cardinality.2 < observed) then
    ValidateResult.cardinalityError p.m_hint
      p.m_cardinality.1 p.m_cardinality.2 observed
  else ValidateResult.ok

/-- Claim C1 counterexample: a container-bound parser keeps the default
cardinality (0, 0), yet is_optional() returns false, contradicting the
claim that an unbounded maximum counts as admitting a match and that
such a parser is optional. -/
theorem C1_counterexample :
    (BoundParser.make (BoundRef.mk true) "cx").m_cardinality = (0, 0) ∧
    (BoundParser.toParserBase
      (BoundParser.make (BoundRef.mk true) "cx")).is_optional = false :=
  ⟨rfl, rfl⟩

/-- Claim C1 (amended): is_optional() returns true iff the reported
minimum is 0 and the reported maximum is strictly positive; an
unbounded maximum represented as 0 is not treated as admitting a match,
so a container-bound parser with default cardinality (0, 0) is not
optional. -/
theorem C1_is_optional :
    (∀ p : parser_base,
      p.is_optional = true ↔ (p.cardinality.1 = 0 ∧ 0 < p.cardinality.2)) ∧
    (∀ (r : BoundRef) (s : String), r.isContainer = true →
      (BoundParser.toParserBase (BoundParser.make r s)).is_optional = false) := by
  constructor
  · intro p
    simp [parser_base.is_optional]
  · intro r s h
    obtain ⟨b⟩ := r
    cases b
    · cases h
    · rfl

/-- Claim C1 (amended) witness at a concrete container-bound parser. -/
theorem C1_is_optional_witness :
    (BoundRef.mk true).isContainer = true ∧
    (BoundParser.toParserBase
      (BoundParser.make (BoundRef.mk true) "w")).is_optional = false :=
  ⟨rfl, C1_is_optional.2 (BoundRef.mk true) "w" rfl⟩

/-- Claim C2: a required bound parser (cardinality (1, 1)) that matched
zero tokens fails validation with a CardinalityError naming its hint
and the required versus observed counts; in general validation succeeds
exactly when the observed count is at least the minimum and within the
maximum (an unbounded maximum, stored as 0, always satisfies the upper
side). -/
theorem C2_validate (p : BoundParser) (observed : Nat) :
    (p.required).validate_modelled 0 =
      ValidateResult.cardinalityError p.m_hint 1 1 0 ∧
    (p.validate_modelled observed = ValidateResult.ok ↔
      (p.m_cardinality.1 ≤ observed ∧
        (p.m_cardinality.2 = 0 ∨ observed ≤ p.m_cardinality.2))) := by
  constructor
  · rfl
  · simp only [BoundParser.validate_modelled]
    split
    · rename_i h
      simp only [reduceCtorEq, false_iff]
      omega
    · rename_i h
      simp only [true_iff]
      omega

/-- Claim C3: the bound_parser constructor initializes the cardinality
to (0, 0) (meaning unbounded) when the bound reference's destination is
container-typed, and to (0, 1) otherwise. -/
theorem C3_initial_cardinality (r : BoundRef) (s : String) :
    (r.isContainer = true ∧ (BoundParser.make r s).m_cardinality = (0, 0)) ∨
    (r.isContainer = false ∧ (BoundParser.make r s).m_cardinality = (0, 1)) := by
  obtain ⟨b⟩ := r
  cases b
  · right
    exact ⟨rfl, rfl⟩
  · left
    exact ⟨rfl, rfl⟩

/-- Claim C4: required() stores (1, 1), optional() stores (0, 1),
cardinality(n) stores (n, n), cardinality(n, m) stores exactly (n, m)
for all n and m (including n > m, with no internal re-validation), and
the cardinality() getter subsequently reports the pair last set, also
after chaining. -/
theorem C4_fluent_setters (p : BoundParser) (n m : Nat) :
    (p.required).m_cardinality = (1, 1) ∧
    (p.optional).m_cardinality = (0, 1) ∧
    (p.cardinalityN n).m_cardinality = (n, n) ∧
    (p.cardinalityNM n m).m_cardinality = (n, m) ∧
    (p.cardinalityNM n m).cardinality = (n, m) ∧
    ((p.required).cardinalityNM n m).cardinality = (n, m) :=
  ⟨rfl, rfl, rfl, rfl, rfl, rfl⟩

/-- Claim C5: a parser that does not override cardinality() reports the
parser_base default (0, 1). -/
theorem C5_default_cardinality (p : parser_base)
    (h : p.cardinality_impl = none) : p.cardinality = (0, 1) := by
  simp [parser_base.cardinality, h]

/-- Claim C5 witness: a concrete parser with no override. -/
theorem C5_default_cardinality_witness :
    (parser_base.mk none).cardinality_impl = none ∧
    (parser_base.mk none).cardinality = (0, 1) :=
  ⟨rfl, C5_default_cardinality (parser_base.mk none) rfl⟩

/-- Claim C6: when the reported cardinality satisfies min <= max (and
max is a size_t value), cardinality_count() returns max - min, and this
is zero exactly when min = max. -/
theorem C6_cardinality_count (p : parser_base)
    (h1 : p.cardinality.1 ≤ p.cardinality.2)
    (h2 : p.cardinality.2 < wordSize) :
    p.cardinality_count = p.cardinality.2 - p.cardinality.1 ∧
    (p.cardinality_count = 0 ↔ p.cardinality.1 = p.cardinality.2) := by
  simp only [parser_base.cardinality_count, sizeT_sub, wordSize] at h2 ⊢
  omega

/-- Claim C6 witness at cardinality (2, 5). -/
theorem C6_cardinality_count_witness :
    (2:Nat) ≤ 5 ∧ (parser_base.mk (some (2, 5))).cardinality_count = 5 - 2 :=
  ⟨by decide,
    (C6_cardinality_count (parser_base.mk (some (2, 5)))
      (by decide) (by decide)).1⟩

/-- Claim C7: the default customization supplies exactly " =" as token
delimiters and exactly "-" as the option prefix, and passing no
customization to parse is the same as passing the default one. -/
theorem C7_default_customization :
    default_parser_customization.token_delimiters = " =" ∧
    parser_customization.option_prefix default_parser_customization = "-" ∧
    ∀ (α : Type) (vp : String → token_iterator → parser_customization → α)
      (a : args),
      parser_base.parse_default vp a =
        parser_base.parse_with vp a default_parser_customization :=
  ⟨rfl, rfl, fun _ _ _ => rfl⟩

/-- Claim C8: each fluent configuration call (required, optional,
cardinality(n), cardinality(n, m), attaching a description) changes
only its own metadata field: the shared bound reference (hence the
externally bound destination) and the hint are unchanged by every call,
the description is unchanged by the cardinality setters, and the
cardinality is unchanged by attaching a description; the result is the
same parser with only that field replaced. -/
theorem C8_fluent_frame (p : BoundParser) (n m : Nat) (d : String) :
    ((p.required).m_ref = p.m_ref ∧ (p.required).m_hint = p.m_hint ∧
      (p.required).m_description = p.m_description) ∧
    ((p.optional).m_ref = p.m_ref ∧ (p.optional).m_hint = p.m_hint ∧
      (p.optional).m_description = p.m_description) ∧
    ((p.cardinalityN n).m_ref = p.m_ref ∧
      (p.cardinalityN n).m_hint = p.m_hint ∧
      (p.cardinalityN n).m_description = p.m_description) ∧
    ((p.cardinalityNM n m).m_ref = p.m_ref ∧
      (p.cardinalityNM n m).m_hint = p.m_hint ∧
      (p.cardinalityNM n m).m_description = p.m_description) ∧
    ((p.describe d).m_ref = p.m_ref ∧ (p.describe d).m_hint = p.m_hint ∧
      (p.describe d).m_cardinality = p.m_cardinality ∧
      (p.describe d).m_description = d) :=
  ⟨⟨rfl, rfl, rfl⟩, ⟨rfl, rfl, rfl⟩, ⟨rfl, rfl, rfl⟩, ⟨rfl, rfl, rfl⟩,
    ⟨rfl, rfl, rfl, rfl⟩⟩

/-- Claim C9: when the stored cardinality has min > max (possible via
cardinality(n, m) with n > m), cardinality_count() wraps: it returns
2^64 - (min - max), a huge nonzero value strictly above max rather than
an error or zero. -/
theorem C9_count_wraps (p : parser_base)
    (h1 : p.cardinality.2 < p.cardinality.1)
    (h2 : p.cardinality.1 < wordSize) :
    p.cardinality_count = wordSize - (p.cardinality.1 - p.cardinality.2) ∧
    p.cardinality.2 < p.cardinality_count := by
  simp only [parser_base.cardinality_count, sizeT_sub, wordSize] at h2 ⊢
  omega

/-- Claim C9 witness: cardinality (2, 1) gives count 2^64 - 1. -/
theorem C9_count_wraps_witness :
    (1:Nat) < 2 ∧
    (parser_base.mk (some (2, 1))).cardinality_count = wordSize - (2 - 1) :=
  ⟨by decide,
    (C9_count_wraps (parser_base.mk (some (2, 1))) (by decide) (by decide)).1⟩

/-- Claim C10: parse_state is a pure record: type() and
remainingTokens() return exactly the constructor arguments, and no
operation mutates a parse_state after construction (every operation in
this embedding is a pure projection). -/
theorem C10_parse_state (t : parser_result_type) (i : token_iterator) :
    (parse_state.mk t i).type = t ∧
    (parse_state.mk t i).remainingTokens = i :=
  ⟨rfl, rfl⟩
